import Mathlib

/-!
Shallow embedding of the data-access and export core of `src/app.py`
(an educational-advising portal over a SQLite store).

Modelling conventions:
* a SQL table is a `List` of row structures in rowid (insertion) order;
* every repository operation takes a `fault : Bool` first argument that
  models whether the underlying `sqlite3` engine raises during that call
  (the `except sqlite3.Error` branch of the Python function); statements
  executed before an uncommitted early return are rolled back, so on a
  fault the database value is unchanged;
* generated values (`uuid.uuid4()`, `datetime.now()`) are passed in as
  explicit string arguments;
* the salted PBKDF2 hash of the external `passlib` library is modelled by
  a deterministic injective tagging function, which no claim depends on.
-/

/-- Character class `[a-zA-Z0-9_.+-]` of the local part of the e-mail
regular expression in `is_valid_email` (`src/app.py` line 80). -/
def localChar (c : Char) : Bool :=
  c.isAlpha || c.isDigit || c = '_' || c = '.' || c = '+' || c = '-'

/-- Character class `[a-zA-Z0-9-]` of the domain part before the first dot. -/
def domChar (c : Char) : Bool :=
  c.isAlpha || c.isDigit || c = '-'

/-- Character class `[a-zA-Z0-9-.]` of the domain part after the first dot. -/
def tldChar (c : Char) : Bool :=
  c.isAlpha || c.isDigit || c = '-' || c = '.'

/-- Split a character list at its first `'.'`, returning the parts before
and after it, or `none` when no dot occurs. -/
def splitAtDot : List Char → Option (List Char × List Char)
  | [] => none
  | c :: cs =>
    if c = '.' then some ([], cs)
    else (splitAtDot cs).map (fun p => (c :: p.1, p.2))

/-- Match of the anchored pattern `[a-zA-Z0-9-]+\.[a-zA-Z0-9-.]+` against the
part after the `'@'`: since the first class excludes `'.'`, the pattern
matches exactly when the first dot is preceded by a nonempty run of
`domChar` and followed by a nonempty run of `tldChar`. -/
def domainMatches (cs : List Char) : Bool :=
  match splitAtDot cs with
  | none => false
  | some (b, c) => !b.isEmpty && b.all domChar && !c.isEmpty && c.all tldChar

/-- Model of `is_valid_email` (`src/app.py` lines 79-81): full match of
`^[a-zA-Z0-9_.+-]+@[a-zA-Z0-9-]+\.[a-zA-Z0-9-.]+$` via `re.match`.  Since no
class contains `'@'`, a match requires exactly one `'@'`.  Python's `$` also
accepts one trailing newline, modelled by the second disjunct. -/
def is_valid_email (email : String) : Bool :=
  let core : List Char → Bool := fun cs =>
    match cs.splitOn '@' with
    | [l, d] => !l.isEmpty && l.all localChar && domainMatches d
    | _ => false
  core email.data ||
    (email.data.getLast? = some '\n' && core email.data.dropLast)

/-- Deterministic model of `passlib`'s `pbkdf2_sha256.hash` used by
`hash_password` (`src/app.py` line 43); the salt of the external library is
abstracted away. -/
def hash_password (password : String) : String :=
  "pbkdf2-sha256-model:" ++ password

/-- Model of `passlib`'s `pbkdf2_sha256.verify` against the deterministic
hash model. -/
def pbkdf2_verify (password stored : String) : Bool :=
  stored == hash_password password

/-- Model of Python's `str.strip()`: drop leading and trailing whitespace
(implemented over the character list so that it evaluates in the kernel). -/
def pyStrip (s : String) : String :=
  ⟨((s.data.dropWhile Char.isWhitespace).reverse.dropWhile
      Char.isWhitespace).reverse⟩

/-- Row of the `users` table (`email` is the primary key). -/
structure UserRow where
  email : String
  name : String
  role : String
  password_hash : Option String
deriving DecidableEq, Repr

/-- Row of the `projects` table (`project_id` is the primary key). -/
structure ProjectRow where
  project_id : String
  email : String
  project_title : String
  timestamp : String
deriving DecidableEq, Repr

/-- Row of the `queries` table (`query_id` is the primary key;
`feedback_rating` is a nullable integer column). -/
structure QueryRow where
  query_id : String
  email : String
  name : String
  project_title : String
  question : String
  response : String
  timestamp : String
  feedback_rating : Option Int
deriving DecidableEq, Repr

/-- Row of the `student_project_mapping` table (`student_email` is the
primary key). -/
structure MappingRow where
  student_email : String
  project_title : String
  mapped_timestamp : String
deriving DecidableEq, Repr

/-- Row of the `student_project_map` history table (composite primary key
`(student_id, project_id)`). -/
structure MapRow where
  student_id : String
  project_id : String
  timestamp : String
deriving DecidableEq, Repr

/-- The database: the five tables created by `init_db`, each as a list of
rows in rowid order, plus a flag recording whether the `password_hash`
column exists on `users` (the additive migration of `init_db`). -/
structure DB where
  usersHasPasswordHash : Bool
  users : List UserRow
  projects : List ProjectRow
  queries : List QueryRow
  student_project_mapping : List MappingRow
  student_project_map : List MapRow
deriving DecidableEq, Repr

/-- A fresh database in which the schema exists and every table is empty. -/
def emptyDB : DB :=
  { usersHasPasswordHash := true
    users := []
    projects := []
    queries := []
    student_project_mapping := []
    student_project_map := [] }

/-- The seeded default administrator row of `init_db`
(`src/app.py` line 152). -/
def defaultAdmin : UserRow :=
  { email := "admin@college.edu"
    name := "Jane Admin"
    role := "admin"
    password_hash := some (hash_password "default123") }

/-- Model of `init_db` (`src/app.py` lines 84-159): `CREATE TABLE IF NOT
EXISTS` for the five tables (the tables always exist in the model), the
additive `ALTER TABLE` adding `password_hash` when missing, and the
`INSERT OR IGNORE` of the default admin.  On a `sqlite3.Error` nothing is
committed and the function only reports the error in the UI. -/
def init_db (fault : Bool) (db : DB) : DB :=
  if fault then db
  else
    let db := { db with usersHasPasswordHash := true }
    if db.users.any (fun u => u.email == "admin@college.edu") then db
    else { db with users := db.users ++ [defaultAdmin] }

/-- Model of `verify_user` (`src/app.py` lines 46-61).  Returns the
`{name, role}` payload or a descriptive error message.  A stored `NULL`
hash is read as the empty string (in Python it would raise inside
`passlib`, outside the `sqlite3.Error` handler; the app never stores one). -/
def verify_user (fault : Bool) (db : DB) (email password : String) :
    Option (String × String) × Option String :=
  if fault then (none, some "Database error. Please try again.")
  else
    match db.users.find? (fun u => u.email == email) with
    | none => (none, some "Email not found.")
    | some u =>
      if pbkdf2_verify password (u.password_hash.getD "") then
        (some (u.name, u.role), none)
      else (none, some "Incorrect password.")

/-- Model of `reset_user_password` (`src/app.py` lines 63-77): `UPDATE` of
the hash, with the not-found case detected through `rowcount == 0`. -/
def reset_user_password (fault : Bool) (db : DB) (email new_password : String) :
    (Bool × String) × DB :=
  if fault then ((false, "Database error. Please try again."), db)
  else if db.users.any (fun u => u.email == email) then
    ((true, "Password reset successfully."),
      { db with users := db.users.map (fun u =>
          if u.email == email then
            { u with password_hash := some (hash_password new_password) }
          else u) })
  else ((false, "User not found."), db)

/-- Truthiness of a Python optional-string argument: `None` and the empty
string are falsy. -/
def strTruthy : Option String → Bool
  | none => false
  | some s => !(s == "")

/-- Model of `save_user` (`src/app.py` lines 161-177).  With a truthy
password: `INSERT OR REPLACE` of the full row with a fresh hash.  Otherwise:
`UPDATE` of `name` and `role` only, which silently changes nothing when the
email does not exist; both paths report success. -/
def save_user (fault : Bool) (db : DB) (email name : String)
    (password : Option String) (role : String) : (Bool × String) × DB :=
  if fault then ((false, "Database error. Please try again."), db)
  else if strTruthy password then
    ((true, "User saved successfully."),
      { db with users := db.users.filter (fun u => !(u.email == email)) ++
          [{ email := email, name := name, role := role
             password_hash := some (hash_password (password.getD "")) }] })
  else
    ((true, "User saved successfully."),
      { db with users := db.users.map (fun u =>
          if u.email == email then { u with name := name, role := role }
          else u) })

/-- Model of `get_project_title_for_student` (`src/app.py` lines 179-189):
the title of the first `student_project_mapping` row for the email, `none`
when there is no row, and also `none` on a `sqlite3.Error` (the error is
only logged). -/
def get_project_title_for_student (fault : Bool) (db : DB) (email : String) :
    Option String :=
  if fault then none
  else
    (db.student_project_mapping.find?
      (fun r => r.student_email == email)).map (fun r => r.project_title)

/-- The `WHERE email = ? AND question = ? AND timestamp = ?` predicate of
the de-duplication check in `save_query`. -/
def queryTripleMatches (email question timestamp : String) (r : QueryRow) :
    Bool :=
  r.email == email && r.question == question && r.timestamp == timestamp

/-- Model of `save_query` (`src/app.py` lines 191-209).  The Python
function returns `None` on every path (modelled by the `Unit` component);
a `sqlite3.Error` is reported only through the UI.  A falsy
`project_title` is resolved from the mapping table with the sentinel
fallback (`x or "No Project Assigned"`, so an empty looked-up title also
falls back; a fault inside the nested lookup behaves like its `none`
case).  The insert happens only when no row matches the
(email, question, timestamp) triple. -/
def save_query (fault : Bool) (db : DB) (query_id email name : String)
    (project_title : Option String) (question response timestamp : String)
    (feedback_rating : Option Int) : Unit × DB :=
  if fault then ((), db)
  else
    let pt : String :=
      if strTruthy project_title then project_title.getD ""
      else
        match get_project_title_for_student false db email with
        | none => "No Project Assigned"
        | some t => if t == "" then "No Project Assigned" else t
    if db.queries.any (queryTripleMatches email question timestamp) then
      ((), db)
    else
      ((), { db with queries := db.queries ++
          [{ query_id := query_id, email := email, name := name
             project_title := pt, question := question, response := response
             timestamp := timestamp, feedback_rating := feedback_rating }] })

/-- Model of `save_project` (`src/app.py` lines 211-231): one insert into
`projects`, one into the `student_project_map` history, and an
`INSERT OR REPLACE` upsert of the `student_project_mapping` row, in one
transaction. -/
def save_project (fault : Bool) (db : DB) (project_id timestamp : String)
    (email project_title : String) : (Bool × String) × DB :=
  if fault then ((false, "Database error. Please try again."), db)
  else
    ((true, "Project saved successfully."),
      { db with
        projects := db.projects ++
          [{ project_id := project_id, email := email
             project_title := project_title, timestamp := timestamp }]
        student_project_map := db.student_project_map ++
          [{ student_id := email, project_id := project_id
             timestamp := timestamp }]
        student_project_mapping :=
          db.student_project_mapping.filter
            (fun r => !(r.student_email == email)) ++
          [{ student_email := email, project_title := project_title
             mapped_timestamp := timestamp }] })

/-- Model of `delete_user` (`src/app.py` lines 244-261): `DELETE` from
`users`; when `rowcount == 0` the call returns not-found without touching
anything, otherwise the cascade deletes from `student_project_mapping`,
`queries` and `projects` are committed together (the `student_project_map`
history is not cleaned). -/
def delete_user (fault : Bool) (db : DB) (email : String) :
    (Bool × String) × DB :=
  if fault then ((false, "Database error. Please try again."), db)
  else if db.users.any (fun u => u.email == email) then
    ((true, "User deleted successfully."),
      { db with
        users := db.users.filter (fun u => !(u.email == email))
        student_project_mapping :=
          db.student_project_mapping.filter
            (fun r => !(r.student_email == email))
        queries := db.queries.filter (fun r => !(r.email == email))
        projects := db.projects.filter (fun r => !(r.email == email)) })
  else ((false, "User not found."), db)

/-- Model of the feedback-rating `UPDATE` statement executed inline in the
UI (`src/app.py` lines 1032-1037): set `feedback_rating` on every `queries`
row matching the email and timestamp. -/
def update_feedback_rating (fault : Bool) (db : DB) (feedback_rating : Int)
    (email timestamp : String) : DB :=
  if fault then db
  else
    { db with queries := db.queries.map (fun r =>
        if r.email == email && r.timestamp == timestamp then
          { r with feedback_rating := some feedback_rating }
        else r) }

/-- Model of `get_available_projects` (`src/app.py` lines 499-509):
`SELECT DISTINCT project_title FROM student_project_mapping ORDER BY
project_title`, with `[]` on a `sqlite3.Error`. -/
def get_available_projects (fault : Bool) (db : DB) : List String :=
  if fault then []
  else
    List.insertionSort (· ≤ ·)
      ((db.student_project_mapping.map (fun r => r.project_title)).dedup)

/-- Python's banker's rounding (`round` ties-to-even) of a rational to an
integer, used by `round(avg_rating, 2)`. -/
def roundHalfEven (x : ℚ) : ℤ :=
  let f := ⌊x⌋
  let r := x - f
  if r < 1/2 then f
  else if (1 : ℚ)/2 < r then f + 1
  else if f % 2 = 0 then f else f + 1

/-- Rounding to two decimal places, modelling `round(x, 2)`; the binary
floating-point value of SQLite's `AVG` is idealised as an exact rational. -/
def round2 (x : ℚ) : ℚ :=
  (roundHalfEven (x * 100) : ℚ) / 100

/-- Model of `get_dashboard_stats` (`src/app.py` lines 263-293).  The
returned Python dict is modelled as an association list in insertion
order; every value is an optional rational (counts are always present).
On success the average entry is keyed `avg_ratings` and is `None` when
`AVG` returned `NULL` or a falsy `0`; on a `sqlite3.Error` the returned
dict has zero counts and the key `avg_rating` instead. -/
def ratSum (l : List Int) : ℚ :=
  (l.map (fun i => (i : ℚ))).sum

def get_dashboard_stats (fault : Bool) (db : DB) :
    List (String × Option ℚ) :=
  if fault then
    [("total_students", some 0), ("total_projects", some 0),
     ("total_queries", some 0), ("avg_rating", none)]
  else
    let total_students :=
      ((db.users.filter (fun u => u.role == "student")).map
        (fun u => u.email)).dedup.length
    let total_projects :=
      ((db.student_project_mapping.map (fun r => r.project_title))).dedup.length
    let total_queries := db.queries.length
    let ratings := db.queries.filterMap (fun r => r.feedback_rating)
    let avg : Option ℚ :=
      if ratings.isEmpty then none
      else some (ratSum ratings / ratings.length)
    [("total_students", some total_students),
     ("total_projects", some total_projects),
     ("total_queries", some total_queries),
     ("avg_ratings",
       match avg with
       | none => none
       | some a => if a = 0 then none else some (round2 a))]

/-- Model of SQLite's `DATE()` restricted to the well-formed
`YYYY-MM-DD HH:MM:SS` strings this application stores, for which it
returns the first ten characters. -/
def sqliteDate (ts : String) : String :=
  ⟨ts.data.take 10⟩

/-- The `WHERE` clause built by both exporters (`src/app.py` lines
298-315): optional exact match on the student email (skipped when falsy),
optional exact match on the project title (skipped when falsy or the
sentinel `All Projects`), and optional inclusive bounds on the date
portion of the timestamp.  `date_from`/`date_to` are the
`strftime("%Y-%m-%d")` renderings of the Python date arguments. -/
def rowMatches (student_email project_filter date_from date_to :
    Option String) (r : QueryRow) : Bool :=
  (if strTruthy student_email then r.email == student_email.getD ""
   else true) &&
  (if strTruthy project_filter && !(project_filter.getD "" == "All Projects")
   then r.project_title == project_filter.getD "" else true) &&
  (match date_from with
   | none => true
   | some d => decide (d ≤ sqliteDate r.timestamp)) &&
  (match date_to with
   | none => true
   | some d => decide (sqliteDate r.timestamp ≤ d))

/-- The `ORDER BY timestamp DESC` relation: an earlier output row has a
timestamp at least that of a later one (SQLite compares `TEXT` bytewise,
which agrees with the codepoint order of Lean strings). -/
def tsGe (a b : QueryRow) : Prop :=
  b.timestamp ≤ a.timestamp

instance : DecidableRel tsGe :=
  fun a b => inferInstanceAs (Decidable (b.timestamp ≤ a.timestamp))

instance : IsTotal QueryRow tsGe :=
  ⟨fun a b => le_total b.timestamp a.timestamp⟩

instance : IsTrans QueryRow tsGe :=
  ⟨fun _ _ _ h1 h2 => le_trans h2 h1⟩

/-- Minimal CSV quoting as used by pandas `to_csv`: a field is quoted when
it contains a separator, a quote or a line break, and embedded quotes are
doubled. -/
def escQuotes : List Char → List Char
  | [] => []
  | c :: cs => if c = '"' then '"' :: '"' :: escQuotes cs else c :: escQuotes cs

def csvField (s : String) : String :=
  if s.data.any (fun c => c = ',' || c = '"' || c = '\n' || c = '\r') then
    "\"" ++ String.mk (escQuotes s.data) ++ "\""
  else s

/-- Rendering of the nullable `feedback_rating` column by pandas `to_csv`:
`NULL` becomes the empty field; when the column contains any `NULL` pandas
holds it as floats, so present ratings render with a trailing `.0`. -/
def ratingCell (colHasNull : Bool) : Option Int → String
  | none => ""
  | some i => if colHasNull then toString i ++ ".0" else toString i

/-- One data line of the exported CSV, in the selected column order. -/
def queryRowToCsvLine (colHasNull : Bool) (r : QueryRow) : String :=
  String.intercalate ","
    [csvField r.email, csvField r.name, csvField r.project_title,
     csvField r.question, csvField r.response, csvField r.timestamp,
     ratingCell colHasNull r.feedback_rating]

/-- The header row of the exported CSV. -/
def csvHeader : String :=
  "email,name,project_title,question,response,timestamp,feedback_rating"

/-- Model of `export_query_logs_to_csv` (`src/app.py` lines 295-330),
returning the lines of the CSV (the returned bytes are their
newline-joined UTF-8 encoding): `None` when no row matches the filters or
on a `sqlite3.Error`, otherwise the header line followed by the matching
rows ordered by timestamp descending. -/
def export_query_logs_to_csv (fault : Bool) (db : DB)
    (student_email project_filter date_from date_to : Option String) :
    Option (List String) :=
  if fault then none
  else
    let rows := List.insertionSort tsGe
      (db.queries.filter
        (rowMatches student_email project_filter date_from date_to))
    if rows.isEmpty then none
    else
      let colHasNull := rows.any (fun r => r.feedback_rating.isNone)
      some (csvHeader :: rows.map (queryRowToCsvLine colHasNull))

/-- One parsed row of the bulk-registration CSV, as produced by
`csv.DictReader` for the three required columns (extra columns are
ignored by the code). -/
structure CsvUserRow where
  email : String
  name : String
  role : String
deriving DecidableEq, Repr

/-- The per-row loop of `bulk_register_users` (`src/app.py` lines
426-441): validation of the stripped fields, then `INSERT OR IGNORE` with
the shared default password, counting rows whose insert affected a row.
An early `return` leaves the transaction uncommitted, so the caller keeps
the original database on an error. -/
def bulkNewUser (r : CsvUserRow) : UserRow :=
  { email := pyStrip r.email
    name := pyStrip r.name
    role := pyStrip r.role
    password_hash := some (hash_password "default123") }

def processBulkRows :
    List CsvUserRow → List UserRow → Except String (List UserRow × Nat)
  | [], users => Except.ok (users, 0)
  | row :: rest, users =>
    let email := pyStrip row.email
    let name := pyStrip row.name
    let role := pyStrip row.role
    if email == "" || name == "" || role == "" then
      Except.error ("Missing data in row: " ++ email)
    else if !is_valid_email email then
      Except.error ("Invalid email format: " ++ email)
    else if !(role == "student" || role == "admin") then
      Except.error ("Invalid role for " ++ email ++ ": " ++ role)
    else if users.any (fun u => u.email == email) then
      processBulkRows rest users
    else
      (processBulkRows rest (users ++ [bulkNewUser row])).map
        (fun p => (p.1, p.2 + 1))

/-- Model of `bulk_register_users` (`src/app.py` lines 416-448).  The CSV
argument is modelled already parsed into its header (`fieldnames`) and its
rows.  The whole batch is committed only when every row validates; any
early return leaves the database unchanged.  The generic `except
Exception` branch embeds the exception text, abbreviated here. -/
def bulk_register_users (fault : Bool) (db : DB) (fieldnames : List String)
    (rows : List CsvUserRow) : (Bool × String) × DB :=
  if fault then
    ((false, "Error processing CSV: (exception text)"), db)
  else if !(["email", "name", "role"].all
      (fun c => fieldnames.contains c)) then
    ((false, "CSV must contain 'email', 'name', and 'role' columns."), db)
  else
    match processBulkRows rows db.users with
    | Except.error msg => ((false, msg), db)
    | Except.ok (users, added) =>
      ((true, toString added ++ " users registered successfully!"),
        { db with users := users })

/-- Number of `queries` rows matching a given (email, question, timestamp)
triple. -/
def tripleCount (db : DB) (email question timestamp : String) : Nat :=
  db.queries.countP (queryTripleMatches email question timestamp)

/-- Number of `users` rows carrying the seeded admin email. -/
def adminCount (users : List UserRow) : Nat :=
  users.countP (fun u => u.email == "admin@college.edu")

/-- A database on which schema initialization has already run: the
`password_hash` column exists and the seeded admin email is present. -/
def dbInitialized (db : DB) : Prop :=
  db.usersHasPasswordHash = true ∧
    db.users.any (fun u => u.email == "admin@college.edu") = true

/-- Claim C1: calling `save_query` twice with an identical
(email, question, timestamp) triple leaves the database of the first call
unchanged (the second insert is silently skipped, so the stored row keeps
its response and feedback rating), and — whenever the table satisfies the
de-duplication invariant beforehand (at most one row per triple, which
every reachable state does) — exactly one row with that triple is stored
afterwards. -/
theorem save_query_dedup (db : DB) (qid1 qid2 n1 n2 r1 r2 : String)
    (pt1 pt2 : Option String) (fr1 fr2 : Option Int) (e qu t : String) :
    (save_query false (save_query false db qid1 e n1 pt1 qu r1 t fr1).2
        qid2 e n2 pt2 qu r2 t fr2).2 =
      (save_query false db qid1 e n1 pt1 qu r1 t fr1).2 ∧
    (tripleCount db e qu t ≤ 1 →
      tripleCount
        (save_query false (save_query false db qid1 e n1 pt1 qu r1 t fr1).2
          qid2 e n2 pt2 qu r2 t fr2).2 e qu t = 1) := by
  cases h : db.queries.any (queryTripleMatches e qu t) with
  | true =>
    have hpos : 0 < tripleCount db e qu t := by
      simpa [tripleCount, List.countP_pos_iff] using List.any_eq_true.mp h
    constructor
    · simp [save_query, h]
    · intro hle
      have hone : tripleCount db e qu t = 1 := le_antisymm hle hpos
      simp [save_query, h, hone]
  | false =>
    have hzero : db.queries.countP (queryTripleMatches e qu t) = 0 := by
      rw [List.countP_eq_zero]
      intro a ha
      simpa using List.any_eq_false.mp h a ha
    have hrow : ∀ q n r pt fr,
        queryTripleMatches e qu t
          { query_id := q, email := e, name := n, project_title := pt,
            question := qu, response := r, timestamp := t,
            feedback_rating := fr } = true := by
      intro q n r pt fr
      simp [queryTripleMatches]
    constructor
    · simp [save_query, h, hrow]
    · intro _
      simp [save_query, h, hrow, tripleCount, List.countP_append, hzero,
        List.countP_cons]

/-- Witness for C1: on the empty database the duplicate-submission pair
`("e@x.com", "q", "t")` yields exactly one stored row. -/
theorem save_query_dedup_witness :
    tripleCount emptyDB "e@x.com" "q" "t" ≤ 1 ∧
    tripleCount
      (save_query false
        (save_query false emptyDB "id1" "e@x.com" "N" none "q" "R" "t" none).2
        "id2" "e@x.com" "N2" none "q" "R2" "t" none).2 "e@x.com" "q" "t" = 1 :=
  ⟨by decide,
   (save_query_dedup emptyDB "id1" "id2" "N" "N2" "R" "R2" none none none none
      "e@x.com" "q" "t").2 (by decide)⟩

/-- Claim C4: re-running `init_db` on an already-initialized database is
the identity (no existing data is changed, in particular a modified admin
record is not overwritten); one run always leaves the database
initialized; a second run after a first changes nothing; and starting from
any state whose users table carries at most one admin row (every real
state, `email` being the primary key), exactly one seeded admin row exists
after a run. -/
theorem init_db_idempotent (db : DB) :
    (dbInitialized db → init_db false db = db) ∧
    dbInitialized (init_db false db) ∧
    init_db false (init_db false db) = init_db false db ∧
    (adminCount db.users ≤ 1 → adminCount (init_db false db).users = 1) := by
  cases h : db.users.any (fun u => u.email == "admin@college.edu") with
  | true =>
    have hpos : 0 < adminCount db.users := by
      simpa [adminCount, List.countP_pos_iff] using List.any_eq_true.mp h
    refine ⟨fun hinit => ?_, ?_, ?_, fun hle => ?_⟩
    · cases db
      simp_all [init_db, dbInitialized]
    · cases db
      simp_all [init_db, dbInitialized]
    · cases db
      simp_all [init_db]
    · simpa [init_db, h, adminCount] using le_antisymm hle hpos
  | false =>
    have hzero : adminCount db.users = 0 := by
      rw [adminCount, List.countP_eq_zero]
      intro a ha
      simpa using List.any_eq_false.mp h a ha
    refine ⟨fun hinit => absurd hinit.2 (by simp [h]), ?_, ?_, fun _ => ?_⟩
    · simp [init_db, h, dbInitialized, defaultAdmin]
    · simp [init_db, h, defaultAdmin]
    · have helem : ∀ a ∈ db.users, ¬a.email = "admin@college.edu" := by
        intro a ha
        simpa using List.any_eq_false.mp h a ha
      simp only [init_db, h, adminCount, List.countP_append,
        List.countP_cons, defaultAdmin, List.countP_eq_zero]
      simp only [Bool.false_eq_true, if_false, ite_true, ite_false]
      simp
      exact helem

/-- Witness for C4: initializing the fresh empty database and then
initializing again changes nothing and leaves exactly one admin row. -/
theorem init_db_idempotent_witness :
    init_db false (init_db false emptyDB) = init_db false emptyDB ∧
    adminCount (init_db false emptyDB).users = 1 :=
  ⟨(init_db_idempotent (init_db false emptyDB)).1
      (init_db_idempotent emptyDB).2.1,
   (init_db_idempotent emptyDB).2.2.2 (by decide)⟩

/-- Claim C2: for an email present in `users`, `delete_user` reports
success and afterwards no row keyed by that email remains in `users`,
`queries`, `student_project_mapping` or `projects`, and a second call with
the same email reports "User not found." without modifying anything; for
an email not present, the call reports "User not found." and leaves the
database unchanged. -/
theorem delete_user_cascade (db : DB) (e : String) :
    (e ∈ db.users.map (fun u => u.email) →
      (delete_user false db e).1 = (true, "User deleted successfully.") ∧
      (∀ u ∈ (delete_user false db e).2.users, u.email ≠ e) ∧
      (∀ r ∈ (delete_user false db e).2.queries, r.email ≠ e) ∧
      (∀ r ∈ (delete_user false db e).2.student_project_mapping,
        r.student_email ≠ e) ∧
      (∀ r ∈ (delete_user false db e).2.projects, r.email ≠ e) ∧
      delete_user false (delete_user false db e).2 e =
        ((false, "User not found."), (delete_user false db e).2)) ∧
    (e ∉ db.users.map (fun u => u.email) →
      delete_user false db e = ((false, "User not found."), db)) := by
  have hmem : e ∈ db.users.map (fun u => u.email) ↔
      db.users.any (fun u => u.email == e) = true := by
    constructor
    · intro hin
      obtain ⟨u, hu, he⟩ := List.mem_map.mp hin
      exact List.any_eq_true.mpr ⟨u, hu, by simp [he]⟩
    · intro hany
      obtain ⟨u, hu, he⟩ := List.any_eq_true.mp hany
      exact List.mem_map.mpr ⟨u, hu, by simpa using he⟩
  cases h : db.users.any (fun u => u.email == e) with
  | true =>
    have hex : ∃ x ∈ db.users, x.email = e := by
      simpa using List.any_eq_true.mp h
    have hno : ¬ ∃ x ∈ List.filter (fun u => !(u.email == e)) db.users,
        x.email = e := by
      rintro ⟨x, hx, hxe⟩
      rw [List.mem_filter] at hx
      simp [hxe] at hx
    refine ⟨fun _ => ?_, fun habs => absurd (hmem.mpr h) habs⟩
    refine ⟨by simp [delete_user, hex], ?_, ?_, ?_, ?_, ?_⟩
    · intro u hu
      simp [delete_user, hex, List.mem_filter] at hu
      exact hu.2
    · intro r hr
      simp [delete_user, hex, List.mem_filter] at hr
      exact hr.2
    · intro r hr
      simp [delete_user, hex, List.mem_filter] at hr
      exact hr.2
    · intro r hr
      simp [delete_user, hex, List.mem_filter] at hr
      exact hr.2
    · simp [delete_user, hex, hno]
  | false =>
    have hno : ¬ ∃ x ∈ db.users, x.email = e := by
      rintro ⟨x, hx, hxe⟩
      have := List.any_eq_false.mp h x hx
      simp [hxe] at this
    refine ⟨fun hin => absurd (hmem.mp hin) (by simp [h]), fun _ => ?_⟩
    simp [delete_user, hno]

/-- The user row of the C2 witness database `dbC2`, which holds
`x@y.com` together with related rows in every cascading table. -/
def userC2 : UserRow :=
  { email := "x@y.com", name := "X", role := "student",
    password_hash := some "h" }

/-- A query row of `x@y.com` for the C2 witness. -/
def queryC2 : QueryRow :=
  { query_id := "q1", email := "x@y.com", name := "X",
    project_title := "P", question := "q", response := "r",
    timestamp := "t", feedback_rating := none }

/-- A mapping row of `x@y.com` for the C2 witness. -/
def mappingC2 : MappingRow :=
  { student_email := "x@y.com", project_title := "P",
    mapped_timestamp := "t" }

/-- A project row of `x@y.com` for the C2 witness. -/
def projectC2 : ProjectRow :=
  { project_id := "p1", email := "x@y.com", project_title := "P",
    timestamp := "t" }

def dbC2 : DB :=
  { emptyDB with
    users := [userC2]
    queries := [queryC2]
    student_project_mapping := [mappingC2]
    projects := [projectC2] }

/-- Witness for C2: deleting `x@y.com` from `dbC2` succeeds, and the
second deletion reports not-found and changes nothing. -/
theorem delete_user_cascade_witness :
    (delete_user false dbC2 "x@y.com").1 =
      (true, "User deleted successfully.") ∧
    delete_user false (delete_user false dbC2 "x@y.com").2 "x@y.com" =
      ((false, "User not found."), (delete_user false dbC2 "x@y.com").2) ∧
    delete_user false emptyDB "x@y.com" =
      ((false, "User not found."), emptyDB) :=
  ⟨((delete_user_cascade dbC2 "x@y.com").1 (by decide)).1,
   ((delete_user_cascade dbC2 "x@y.com").1 (by decide)).2.2.2.2.2,
   (delete_user_cascade emptyDB "x@y.com").2 (by decide)⟩

/-- Claim C9: `save_user` with the password omitted reports success,
keeps every user's email and password hash unchanged, rewrites only the
name and role of rows matching the email, leaves the matching rows'
password hashes and every other table untouched, and when no row matches
the email it changes nothing at all while still reporting success (no
distinct not-found signal). -/
theorem save_user_update_only (db : DB) (e n role : String) :
    (save_user false db e n none role).1 = (true, "User saved successfully.") ∧
    (save_user false db e n none role).2.users.map (fun u => u.email) =
      db.users.map (fun u => u.email) ∧
    (save_user false db e n none role).2.users.map
        (fun u => u.password_hash) =
      db.users.map (fun u => u.password_hash) ∧
    (∀ u ∈ db.users, u.email = e →
      { u with name := n, role := role } ∈
        (save_user false db e n none role).2.users) ∧
    (∀ u ∈ db.users, u.email ≠ e →
      u ∈ (save_user false db e n none role).2.users) ∧
    (save_user false db e n none role).2.projects = db.projects ∧
    (save_user false db e n none role).2.queries = db.queries ∧
    (save_user false db e n none role).2.student_project_mapping =
      db.student_project_mapping ∧
    (save_user false db e n none role).2.student_project_map =
      db.student_project_map ∧
    (e ∉ db.users.map (fun u => u.email) →
      (save_user false db e n none role).2 = db) := by
  refine ⟨by simp [save_user, strTruthy], ?_, ?_, ?_, ?_, by
    simp [save_user, strTruthy], by simp [save_user, strTruthy], by
    simp [save_user, strTruthy], by simp [save_user, strTruthy], ?_⟩
  · simp only [save_user, strTruthy]
    simp only [Bool.false_eq_true, if_false, List.map_map]
    refine List.map_congr_left (fun u _ => ?_)
    by_cases hu : u.email = e <;> simp [hu]
  · simp only [save_user, strTruthy]
    simp only [Bool.false_eq_true, if_false, List.map_map]
    refine List.map_congr_left (fun u _ => ?_)
    by_cases hu : u.email = e <;> simp [hu]
  · intro u hu hue
    simp only [save_user, strTruthy]
    simp only [Bool.false_eq_true, if_false]
    exact List.mem_map.mpr ⟨u, hu, by simp [hue]⟩
  · intro u hu hue
    simp only [save_user, strTruthy]
    simp only [Bool.false_eq_true, if_false]
    exact List.mem_map.mpr ⟨u, hu, by simp [hue]⟩
  · intro hnotin
    have hid : db.users.map (fun u =>
        if u.email == e then { u with name := n, role := role } else u) =
        db.users := by
      have : ∀ u ∈ db.users, (if u.email == e then
          { u with name := n, role := role } else u) = u := by
        intro u hu
        have hne : u.email ≠ e := fun habs =>
          hnotin (List.mem_map.mpr ⟨u, hu, habs⟩)
        simp [hne]
      rw [List.map_congr_left this]
      simp
    simp only [save_user, strTruthy]
    simp only [Bool.false_eq_true, if_false, hid]

/-- A one-user database for the C9 witness. -/
def userC9 : UserRow :=
  { email := "x@y.com", name := "Old", role := "student",
    password_hash := some "h1" }

/-- The C9 witness database. -/
def dbC9 : DB :=
  { emptyDB with users := [userC9] }

/-- Witness for C9: updating the present user rewrites name and role but
keeps the stored hash, and updating an absent email is a silent no-op. -/
theorem save_user_update_only_witness :
    ({ email := "x@y.com", name := "New", role := "admin",
        password_hash := some "h1" } : UserRow) ∈
      (save_user false dbC9 "x@y.com" "New" none "admin").2.users ∧
    (save_user false dbC9 "a@b.com" "N" none "student").2 = dbC9 :=
  ⟨(save_user_update_only dbC9 "x@y.com" "New" "admin").2.2.2.1
      userC9 (by decide) rfl,
   (save_user_update_only dbC9 "a@b.com" "N" "student").2.2.2.2.2.2.2.2.2
      (by decide)⟩

/-- Claim C10 (as holding on the code): the success dictionary of
`get_dashboard_stats` carries the average-rating entry under the key
`avg_ratings` (with value `None` when no rating exists), while the
storage-error dictionary has zero counts and the key `avg_rating`
instead, so `avg_ratings` is absent exactly on the error path. -/
theorem get_dashboard_stats_shape (fault : Bool) (db : DB) :
    (get_dashboard_stats false db).map Prod.fst =
      ["total_students", "total_projects", "total_queries", "avg_ratings"] ∧
    get_dashboard_stats true db =
      [("total_students", some 0), ("total_projects", some 0),
       ("total_queries", some 0), ("avg_rating", none)] ∧
    (("avg_ratings" ∈ (get_dashboard_stats fault db).map Prod.fst) ↔
      fault = false) ∧
    (db.queries.filterMap (fun r => r.feedback_rating) = [] →
      (get_dashboard_stats false db).lookup "avg_ratings" = some none) := by
  refine ⟨by simp [get_dashboard_stats], by simp [get_dashboard_stats],
    ?_, ?_⟩
  · cases fault <;> simp [get_dashboard_stats]
  · intro hemp
    simp only [get_dashboard_stats, hemp]
    simp [List.lookup]

/-- Witness for C10: on the empty database the success dictionary holds
the `avg_ratings` key with value `None`. -/
theorem get_dashboard_stats_shape_witness :
    (get_dashboard_stats false emptyDB).lookup "avg_ratings" = some none :=
  (get_dashboard_stats_shape false emptyDB).2.2.2 rfl

/-- A mapping row for the C6 counterexample database. -/
def mappingC6 : MappingRow :=
  { student_email := "s@c.edu", project_title := "AI Tutor",
    mapped_timestamp := "t" }

/-- A database in which `s@c.edu` has a current project mapping. -/
def dbC6 : DB :=
  { emptyDB with student_project_mapping := [mappingC6] }

/-- Counterexample to C6: `save_query` returns the same (empty) value to
its caller on a storage-error run and on a successful run, and
`get_project_title_for_student` on a storage-error run returns exactly the
`none` that a successful run returns when no mapping exists — even though
a mapping for `s@c.edu` is present — so neither operation reports success
or failure distinguishably to its caller. -/
theorem error_reporting_cex :
    (save_query true emptyDB "q1" "s@c.edu" "S" none "q" "r" "t" none).1 =
      (save_query false emptyDB "q1" "s@c.edu" "S" none "q" "r" "t" none).1 ∧
    get_project_title_for_student true dbC6 "s@c.edu" =
      get_project_title_for_student false emptyDB "s@c.edu" ∧
    get_project_title_for_student false dbC6 "s@c.edu" = some "AI Tutor" :=
  ⟨rfl, rfl, by decide⟩

/-- Claim C6 as amended: the repository and export operations
`verify_user`, `reset_user_password`, `save_user`, `save_project`,
`delete_user`, `bulk_register_users` and `export_query_logs_to_csv`
return a success/failure indicator (with a message or an absent result)
on their storage-error path, but `save_query` returns nothing to its
caller on any path (its errors surface only in the UI) and
`get_project_title_for_student` returns `none` on a storage error,
indistinguishable from the no-mapping answer. -/
theorem error_reporting_amended (fault : Bool) (db : DB)
    (qid e n p q r t : String) (pt se pf df dt : Option String)
    (fr : Option Int) (fieldnames : List String) (rows : List CsvUserRow)
    (password : Option String) :
    (verify_user true db e p).1 = none ∧
    (verify_user true db e p).2 = some "Database error. Please try again." ∧
    (reset_user_password true db e p).1 =
      (false, "Database error. Please try again.") ∧
    (save_user true db e n password r).1 =
      (false, "Database error. Please try again.") ∧
    (save_project true db qid t e p).1 =
      (false, "Database error. Please try again.") ∧
    (delete_user true db e).1 =
      (false, "Database error. Please try again.") ∧
    (bulk_register_users true db fieldnames rows).1.1 = false ∧
    export_query_logs_to_csv true db se pf df dt = none ∧
    (save_query fault db qid e n pt q r t fr).1 = () ∧
    get_project_title_for_student true db e = none := by
  cases fault <;> exact ⟨rfl, rfl, rfl, rfl, rfl, rfl, rfl, rfl, rfl, rfl⟩

/-- Counterexample to C7: `save_query` stores a rating argument of `7`
verbatim and the inline rating `UPDATE` stores `9` verbatim, so the
repository operations do not themselves keep `feedback_rating` within
`[1, 5]` for every integer argument. -/
theorem feedback_rating_range_cex :
    (save_query false emptyDB "q1" "s@c.edu" "S" (some "P") "q" "r" "t"
        (some 7)).2.queries.map (fun r => r.feedback_rating) = [some 7] ∧
    (update_feedback_rating false
        (save_query false emptyDB "q1" "s@c.edu" "S" (some "P") "q" "r" "t"
          none).2 9 "s@c.edu" "t").queries.map
        (fun r => r.feedback_rating) = [some 9] ∧
    ¬((7 : Int) ≤ 5) ∧ ¬((9 : Int) ≤ 5) :=
  ⟨by decide, by decide, by decide, by decide⟩

/-- Every present `feedback_rating` in the `queries` table lies in the
interval `[1, 5]`. -/
def RatingInv (db : DB) : Prop :=
  ∀ r ∈ db.queries, ∀ v, r.feedback_rating = some v → 1 ≤ v ∧ v ≤ 5

/-- Claim C7 as amended: the two rating-writing operations perform no
validation of their own, so the `[1, 5]` invariant is preserved exactly
under the precondition that the caller passes a rating in range (or none)
— which the UI slider (min 1, max 5) guarantees for every write the
application performs. -/
theorem feedback_rating_range_amended (db : DB) (qid e n q resp t : String)
    (pt : Option String) (fr : Option Int) (k : Int) :
    RatingInv db →
    ((∀ v, fr = some v → 1 ≤ v ∧ v ≤ 5) →
      RatingInv (save_query false db qid e n pt q resp t fr).2) ∧
    (1 ≤ k ∧ k ≤ 5 → RatingInv (update_feedback_rating false db k e t)) := by
  intro hinv
  constructor
  · intro hfr
    cases h : db.queries.any (queryTripleMatches e q t) with
    | true =>
      intro r hr v hv
      simp [save_query, h] at hr
      exact hinv r hr v hv
    | false =>
      intro r hr v hv
      simp [save_query, h] at hr
      rcases hr with hr | hr
      · exact hinv r hr v hv
      · subst hr
        simp at hv
        subst hv
        exact hfr v rfl
  · rintro ⟨hk1, hk5⟩ r hr v hv
    simp only [update_feedback_rating] at hr
    simp only [Bool.false_eq_true, if_false, List.mem_map] at hr
    obtain ⟨r0, hr0, heq⟩ := hr
    by_cases hc : (r0.email == e && r0.timestamp == t) = true
    · rw [if_pos hc] at heq
      subst heq
      simp at hv
      subst hv
      exact ⟨hk1, hk5⟩
    · rw [if_neg hc] at heq
      subst heq
      exact hinv r0 hr0 v hv

/-- Witness for the amended C7: an in-range write through each operation
keeps the invariant on a concrete database. -/
theorem feedback_rating_range_amended_witness :
    RatingInv (save_query false emptyDB "q1" "e@x.com" "N" (some "P") "q"
      "r" "t" (some 3)).2 ∧
    RatingInv (update_feedback_rating false emptyDB 4 "e@x.com" "t") := by
  have h := feedback_rating_range_amended emptyDB "q1" "e@x.com" "N" "q" "r"
    "t" (some "P") (some 3) 4
    (by intro r hr; exact absurd hr (List.not_mem_nil r))
  refine ⟨h.1 ?_, h.2 ⟨by norm_num, by norm_num⟩⟩
  intro v hv
  injection hv with hv
  subst hv
  exact ⟨by norm_num, by norm_num⟩

/-- Counterexample to C8: after `s@c.edu` submits project "A" and then
project "B", the title "A" appears in the `projects` history (it was
mapped in the past) yet `get_available_projects` returns only `["B"]` —
the function does not return every title ever mapped. -/
theorem get_available_projects_cex :
    "A" ∈ ((save_project false
        (save_project false emptyDB "p1" "t1" "s@c.edu" "A").2
        "p2" "t2" "s@c.edu" "B").2.projects.map (fun r => r.project_title)) ∧
    get_available_projects false
      (save_project false
        (save_project false emptyDB "p1" "t1" "s@c.edu" "A").2
        "p2" "t2" "s@c.edu" "B").2 = ["B"] :=
  ⟨by decide, by decide⟩

/-- Claim C8 as amended: `get_available_projects` returns the distinct
sorted list of the project titles *currently* mapped to some student in
`student_project_mapping`; a title disappears once every student who had
it is remapped. -/
theorem get_available_projects_current (db : DB) :
    (∀ t, t ∈ get_available_projects false db ↔
      ∃ r ∈ db.student_project_mapping, r.project_title = t) ∧
    List.Sorted (· ≤ ·) (get_available_projects false db) ∧
    (get_available_projects false db).Nodup := by
  refine ⟨fun t => ?_, ?_, ?_⟩
  · simp only [get_available_projects, Bool.false_eq_true, if_false]
    rw [(List.perm_insertionSort _ _).mem_iff, List.mem_dedup]
    simp [List.mem_map]
  · simp only [get_available_projects, Bool.false_eq_true, if_false]
    exact List.sorted_insertionSort _ _
  · simp only [get_available_projects, Bool.false_eq_true, if_false]
    exact ((List.perm_insertionSort _ _).nodup_iff).mpr (List.nodup_dedup _)

/-- Validity of one bulk-registration row after stripping: all three
fields non-empty, the email well-formed, and the role one of
student/admin — the checks of the loop in `bulk_register_users`. -/
def rowValid (r : CsvUserRow) : Bool :=
  !(pyStrip r.email == "") && !(pyStrip r.name == "") &&
  !(pyStrip r.role == "") && is_valid_email (pyStrip r.email) &&
  (pyStrip r.role == "student" || pyStrip r.role == "admin")

/-- The error message `bulk_register_users` issues for an invalid row:
the first failing check, in the order the loop performs them. -/
def rowError (r : CsvUserRow) : String :=
  if pyStrip r.email == "" || pyStrip r.name == "" || pyStrip r.role == ""
  then "Missing data in row: " ++ pyStrip r.email
  else if !is_valid_email (pyStrip r.email) then
    "Invalid email format: " ++ pyStrip r.email
  else "Invalid role for " ++ pyStrip r.email ++ ": " ++ pyStrip r.role

/-- Specification-level count of the rows a bulk registration actually
inserts: rows whose stripped email neither already exists nor appeared
earlier in the same batch. -/
def countNewEmails (existing : List String) : List CsvUserRow → Nat
  | [] => 0
  | r :: rest =>
    if existing.contains (pyStrip r.email) then countNewEmails existing rest
    else countNewEmails (pyStrip r.email :: existing) rest + 1

/-- The bulk loop aborts with the first invalid row's message, for any
accumulated user list. -/
theorem processBulkRows_error (rows : List CsvUserRow) (users : List UserRow)
    (r0 : CsvUserRow)
    (hfind : rows.find? (fun r => !rowValid r) = some r0) :
    processBulkRows rows users = Except.error (rowError r0) := by
  induction rows generalizing users with
  | nil => simp at hfind
  | cons r rest ih =>
    cases hv : rowValid r with
    | false =>
      have hr0 : r0 = r := by
        rw [List.find?_cons_of_pos _ (by simp [hv])] at hfind
        exact (Option.some.inj hfind).symm
      subst hr0
      by_cases h1 : (pyStrip r0.email == "" || pyStrip r0.name == "" ||
          pyStrip r0.role == "") = true
      · simp only [processBulkRows, rowError]
        rw [if_pos h1, if_pos h1]
      · by_cases h2 : is_valid_email (pyStrip r0.email) = true
        · have h3 : (pyStrip r0.role == "student" ||
              pyStrip r0.role == "admin") = false := by
            rcases Bool.or_eq_false_iff.mp (Bool.eq_false_iff.mpr h1) with
              ⟨hee, hrr⟩
            rcases Bool.or_eq_false_iff.mp hee with ⟨he, hn⟩
            simp only [rowValid, he, hn, hrr, h2, Bool.not_false,
              Bool.true_and, Bool.and_true] at hv
            exact hv
          simp only [processBulkRows, rowError]
          rw [if_neg h1, if_neg (by simp [h2]), if_pos (by simp [h3]),
            if_neg h1, if_neg (by simp [h2])]
        · simp only [processBulkRows, rowError]
          rw [if_neg h1, if_pos (by simp [h2]), if_neg h1,
            if_pos (by simp [h2])]
    | true =>
      have hfind' : rest.find? (fun r => !rowValid r) = some r0 := by
        rwa [List.find?_cons_of_neg _ (by simp [hv])] at hfind
      have hfall := hv
      simp only [rowValid, Bool.and_eq_true] at hfall
      obtain ⟨⟨⟨⟨he, hn⟩, hro⟩, hval⟩, hrole⟩ := hfall
      have he' : (pyStrip r.email == "") = false := by simpa using he
      have hn' : (pyStrip r.name == "") = false := by simpa using hn
      have hro' : (pyStrip r.role == "") = false := by simpa using hro
      simp only [processBulkRows]
      rw [if_neg (by simp [he', hn', hro']), if_neg (by simp [hval]),
        if_neg (by simp [hrole])]
      cases hmem : users.any (fun u => u.email == pyStrip r.email) with
      | true =>
        rw [if_pos rfl]
        exact ih _ hfind'
      | false =>
        rw [if_neg (by simp)]
        rw [ih _ hfind']
        rfl

/-- Membership of an email in the projected email column agrees with the
`any`-test the loop performs on the user rows. -/
theorem contains_map_email (users : List UserRow) (e : String) :
    (users.map (fun u => u.email)).contains e =
      users.any (fun u => u.email == e) := by
  induction users with
  | nil => rfl
  | cons u us ih =>
    simp only [List.map_cons, List.contains_cons, List.any_cons, ih]
    have : (e == u.email) = (u.email == e) := by
      by_cases h : e = u.email
      · subst h
        simp
      · simp [h, Ne.symm h]
    rw [this]

/-- Appending one element on the right adds the same membership test as
prepending it on the left. -/
theorem contains_append_singleton (l : List String) (a s : String) :
    (l ++ [a]).contains s = ((s == a) || l.contains s) := by
  induction l with
  | nil =>
    by_cases h : s = a <;> simp [List.contains_cons, h]
  | cons b bs ih =>
    simp only [List.cons_append, List.contains_cons, ih]
    cases h1 : (s == b) <;> cases h2 : (s == a) <;> simp

/-- The inserted-row count depends on the known-email list only through
membership. -/
theorem countNewEmails_congr (rows : List CsvUserRow) (ex1 ex2 : List String)
    (h : ∀ s, ex1.contains s = ex2.contains s) :
    countNewEmails ex1 rows = countNewEmails ex2 rows := by
  induction rows generalizing ex1 ex2 with
  | nil => rfl
  | cons r rest ih =>
    simp only [countNewEmails, h]
    cases hc : ex2.contains (pyStrip r.email) with
    | true =>
      rw [if_pos rfl, if_pos rfl]
      exact ih ex1 ex2 h
    | false =>
      rw [if_neg (by simp), if_neg (by simp)]
      have h' : ∀ s, (pyStrip r.email :: ex1).contains s =
          (pyStrip r.email :: ex2).contains s := by
        intro s
        simp only [List.contains_cons, h]
      rw [ih _ _ h']

/-- On an all-valid batch the loop succeeds and its insert counter equals
the specification-level count of fresh emails. -/
theorem processBulkRows_ok (rows : List CsvUserRow) (users : List UserRow)
    (hvalid : ∀ r ∈ rows, rowValid r = true) :
    ∃ users', processBulkRows rows users =
      Except.ok (users',
        countNewEmails (users.map (fun u => u.email)) rows) := by
  induction rows generalizing users with
  | nil => exact ⟨users, rfl⟩
  | cons r rest ih =>
    have hv := hvalid r (List.mem_cons_self r rest)
    have hrest : ∀ x ∈ rest, rowValid x = true := fun x hx =>
      hvalid x (List.mem_cons_of_mem r hx)
    have hfall := hv
    simp only [rowValid, Bool.and_eq_true] at hfall
    obtain ⟨⟨⟨⟨he, hn⟩, hro⟩, hval⟩, hrole⟩ := hfall
    have he' : (pyStrip r.email == "") = false := by simpa using he
    have hn' : (pyStrip r.name == "") = false := by simpa using hn
    have hro' : (pyStrip r.role == "") = false := by simpa using hro
    simp only [processBulkRows, countNewEmails]
    rw [if_neg (by simp [he', hn', hro']), if_neg (by simp [hval]),
      if_neg (by simp [hrole]), contains_map_email]
    cases hmem : users.any (fun u => u.email == pyStrip r.email) with
    | true =>
      rw [if_pos rfl, if_pos rfl]
      exact ih users hrest
    | false =>
      rw [if_neg (by simp), if_neg (by simp)]
      obtain ⟨users', hu⟩ := ih (users ++ [bulkNewUser r]) hrest
      refine ⟨users', ?_⟩
      rw [hu]
      have hcong : countNewEmails
          ((users ++ [bulkNewUser r]).map (fun u => u.email)) rest =
          countNewEmails (pyStrip r.email :: users.map (fun u => u.email))
            rest := by
        refine countNewEmails_congr rest _ _ (fun s => ?_)
        rw [List.map_append]
        simp only [List.map_cons, List.map_nil, bulkNewUser]
        rw [contains_append_singleton, List.contains_cons]
      rw [hcong]
      rfl

/-- Claim C3: given a CSV whose header carries the three required
columns, any batch containing an invalid row (empty field, malformed
email, or role outside student/admin) makes `bulk_register_users` report
failure — with the message of the first invalid row — and commit nothing
(the database is exactly the one before the call, so valid rows preceding
the invalid one are not inserted); an all-valid batch reports success
with the count of rows actually inserted, excluding emails that already
existed. -/
theorem bulk_register_all_or_nothing (db : DB) (fieldnames : List String)
    (rows : List CsvUserRow)
    (hhdr : (["email", "name", "role"].all
      (fun c => fieldnames.contains c)) = true) :
    ((∃ r ∈ rows, rowValid r = false) →
      (bulk_register_users false db fieldnames rows).1.1 = false ∧
      (bulk_register_users false db fieldnames rows).2 = db) ∧
    (∀ r0, rows.find? (fun r => !rowValid r) = some r0 →
      (bulk_register_users false db fieldnames rows).1 =
        (false, rowError r0)) ∧
    ((∀ r ∈ rows, rowValid r = true) →
      (bulk_register_users false db fieldnames rows).1.1 = true ∧
      (bulk_register_users false db fieldnames rows).1.2 =
        toString (countNewEmails (db.users.map (fun u => u.email)) rows) ++
          " users registered successfully!") := by
  have hmem3 : "email" ∈ fieldnames ∧ "name" ∈ fieldnames ∧
      "role" ∈ fieldnames := by
    simpa using hhdr
  refine ⟨?_, ?_, ?_⟩
  · rintro ⟨r, hr, hrv⟩
    cases hf : rows.find? (fun r => !rowValid r) with
    | none =>
      rw [List.find?_eq_none] at hf
      exact absurd (by simp [hrv] : (!rowValid r) = true) (hf r hr)
    | some r0 =>
      have herr := processBulkRows_error rows db.users r0 hf
      have hbulk : bulk_register_users false db fieldnames rows =
          ((false, rowError r0), db) := by
        simp only [bulk_register_users]
        rw [if_neg (by simp), if_neg (by
          simp [hmem3.1, hmem3.2.1, hmem3.2.2]), herr]
      exact ⟨by rw [hbulk], by rw [hbulk]⟩
  · intro r0 hf
    have herr := processBulkRows_error rows db.users r0 hf
    have hbulk : bulk_register_users false db fieldnames rows =
        ((false, rowError r0), db) := by
      simp only [bulk_register_users]
      rw [if_neg (by simp), if_neg (by
        simp [hmem3.1, hmem3.2.1, hmem3.2.2]), herr]
    rw [hbulk]
  · intro hval
    obtain ⟨users', hu⟩ := processBulkRows_ok rows db.users hval
    have hbulk : bulk_register_users false db fieldnames rows =
        ((true, toString (countNewEmails (db.users.map (fun u => u.email))
            rows) ++ " users registered successfully!"),
          { db with users := users' }) := by
      simp only [bulk_register_users]
      rw [if_neg (by simp), if_neg (by
        simp [hmem3.1, hmem3.2.1, hmem3.2.2]), hu]
    exact ⟨by rw [hbulk], by rw [hbulk]⟩

/-- Witness for C3: the spec's scenario — Alice followed by the malformed
`bad-email` row — is rejected citing the email and commits nothing, while
the batch holding Alice alone inserts one user. -/
theorem bulk_register_all_or_nothing_witness :
    (bulk_register_users false emptyDB ["email", "name", "role"]
      [{ email := "a@b.com", name := "Alice", role := "student" },
       { email := "bad-email", name := "Bob", role := "student" }]).1 =
      (false, "Invalid email format: bad-email") ∧
    (bulk_register_users false emptyDB ["email", "name", "role"]
      [{ email := "a@b.com", name := "Alice", role := "student" },
       { email := "bad-email", name := "Bob", role := "student" }]).2 =
      emptyDB ∧
    (bulk_register_users false emptyDB ["email", "name", "role"]
      [{ email := "a@b.com", name := "Alice", role := "student" }]).1 =
      (true, "1 users registered successfully!") := by
  have H := bulk_register_all_or_nothing emptyDB ["email", "name", "role"]
    [{ email := "a@b.com", name := "Alice", role := "student" },
     { email := "bad-email", name := "Bob", role := "student" }] (by decide)
  have H2 := bulk_register_all_or_nothing emptyDB ["email", "name", "role"]
    [{ email := "a@b.com", name := "Alice", role := "student" }] (by decide)
  refine ⟨?_, ?_, ?_⟩
  · have := H.2.1 { email := "bad-email", name := "Bob", role := "student" }
      (by decide)
    rw [this]
    decide
  · exact (H.1 ⟨{ email := "bad-email", name := "Bob", role := "student" },
      by decide, by decide⟩).2
  · have h1 := (H2.2.2 (by decide)).1
    have h2 := (H2.2.2 (by decide)).2
    have hsplit : (bulk_register_users false emptyDB
        ["email", "name", "role"]
        [{ email := "a@b.com", name := "Alice", role := "student" }]).1 =
        ((bulk_register_users false emptyDB ["email", "name", "role"]
          [{ email := "a@b.com", name := "Alice", role := "student" }]).1.1,
         (bulk_register_users false emptyDB ["email", "name", "role"]
          [{ email := "a@b.com", name := "Alice",
             role := "student" }]).1.2) := rfl
    rw [hsplit, h1, h2]
    decide

/-- Claim C5: for every combination of optional filters,
`export_query_logs_to_csv` returns the absent result exactly when no
`queries` row matches, and otherwise returns CSV whose first line is
exactly the seven-column header and whose data lines are exactly the
matching rows, ordered by timestamp descending. -/
theorem export_query_logs_to_csv_spec (db : DB)
    (se pf df dt : Option String) :
    (export_query_logs_to_csv false db se pf df dt = none ↔
      db.queries.filter (rowMatches se pf df dt) = []) ∧
    (∀ ls, export_query_logs_to_csv false db se pf df dt = some ls →
      ls.head? = some csvHeader ∧
      ∃ rs, rs.Perm (db.queries.filter (rowMatches se pf df dt)) ∧
        List.Pairwise tsGe rs ∧
        ls = csvHeader :: rs.map (queryRowToCsvLine
          (rs.any (fun r => r.feedback_rating.isNone)))) := by
  have hperm := List.perm_insertionSort tsGe
    (db.queries.filter (rowMatches se pf df dt))
  have hiff : (List.insertionSort tsGe
      (db.queries.filter (rowMatches se pf df dt))).isEmpty = true ↔
      db.queries.filter (rowMatches se pf df dt) = [] := by
    rw [List.isEmpty_iff]
    constructor
    · intro h
      exact (h ▸ hperm).symm.eq_nil
    · intro h
      rw [h]
      rfl
  cases hemp : (List.insertionSort tsGe
      (db.queries.filter (rowMatches se pf df dt))).isEmpty with
  | true =>
    have hexp : export_query_logs_to_csv false db se pf df dt = none := by
      simp only [export_query_logs_to_csv]
      rw [if_neg (by simp), if_pos hemp]
    refine ⟨⟨fun _ => hiff.mp hemp, fun _ => hexp⟩, fun ls hls => ?_⟩
    rw [hexp] at hls
    exact absurd hls (by simp)
  | false =>
    have hexp : export_query_logs_to_csv false db se pf df dt =
        some (csvHeader :: (List.insertionSort tsGe
          (db.queries.filter (rowMatches se pf df dt))).map
          (queryRowToCsvLine ((List.insertionSort tsGe
            (db.queries.filter (rowMatches se pf df dt))).any
            (fun r => r.feedback_rating.isNone)))) := by
      simp only [export_query_logs_to_csv]
      rw [if_neg (by simp), if_neg (by simp [hemp])]
    constructor
    · rw [hexp]
      constructor
      · intro h
        exact absurd h (by simp)
      · intro h
        exact absurd (hiff.mpr h) (by simp [hemp])
    · intro ls hls
      rw [hexp] at hls
      have hls' := Option.some.inj hls
      subst hls'
      refine ⟨rfl, List.insertionSort tsGe
        (db.queries.filter (rowMatches se pf df dt)), hperm,
        List.sorted_insertionSort tsGe _, rfl⟩

/-- A query row for the C5 witness database. -/
def queryC5 : QueryRow :=
  { query_id := "q1", email := "s@c.edu", name := "S",
    project_title := "P", question := "q", response := "r",
    timestamp := "2025-01-01 00:00:00", feedback_rating := some 5 }

/-- A database with a single query row, for the C5 witness. -/
def dbC5 : DB :=
  { emptyDB with queries := [queryC5] }

/-- Witness for C5: with no filters on `dbC5` the export produces the
header plus the one matching data line. -/
theorem export_query_logs_to_csv_spec_witness :
    ([csvHeader, "s@c.edu,S,P,q,r,2025-01-01 00:00:00,5"] :
        List String).head? = some csvHeader ∧
    ∃ rs, rs.Perm (dbC5.queries.filter (rowMatches none none none none)) ∧
      List.Pairwise tsGe rs ∧
      ([csvHeader, "s@c.edu,S,P,q,r,2025-01-01 00:00:00,5"] :
          List String) =
        csvHeader :: rs.map (queryRowToCsvLine
          (rs.any (fun r => r.feedback_rating.isNone))) :=
  (export_query_logs_to_csv_spec dbC5 none none none none).2
    [csvHeader, "s@c.edu,S,P,q,r,2025-01-01 00:00:00,5"] (by decide)
